import Mathlib

/-!
Shallow embedding of src/adapters/tlsio_openssl_compact.c.

The adapter is a single-connection TLS client built on a process-wide static
instance (tlsio_static_instance).  External collaborators (the OpenSSL
library, the raw socket factory, the sleep primitive) are modelled as
oracles: each external call site reads its result from an oracle argument,
and every externally observable action (callback invocations, sleeps,
resource releases) is recorded in an event trace.

Modelling conventions:
  * pointers that only matter as null / non-null become `Option` values;
    callback function pointers carry a numeric identity so that distinct
    callbacks can be told apart in the trace;
  * `__FAILURE__` expands to a nonzero line number in the C source; it is
    modelled as the nonzero constant `FAILURE`;
  * machine integers are modelled as `Int` / `Nat`; the one subtraction in
    the send loop (`size = size - res`) uses truncated `Nat` subtraction,
    which agrees with the C `size_t` arithmetic whenever the transport
    writes at most the number of bytes it was asked to write;
  * the send loop of the C source has no iteration bound, so its embedding
    takes a fuel argument and returns `none` when the fuel is exhausted
    before the loop exits.
-/

/-- TLSIO_STATE from the source. -/
inductive TLSIO_STATE
  | NOT_OPEN
  | OPENING
  | OPEN
  | CLOSING
  | ERROR
deriving DecidableEq, Repr

/-- IO_SEND_RESULT values used by the send completion callback. -/
inductive IO_SEND_RESULT
  | IO_SEND_OK
  | IO_SEND_ERROR
deriving DecidableEq, Repr

/-- Externally observable actions of the adapter, in program order:
callback invocations, sleeps, and releases of external resources. -/
inductive CbEvent
  | openComplete (cb ctx : Nat)
  | bytesReceived (cb ctx count : Nat)
  | closeComplete (cb ctx : Nat)
  | ioError (cb ctx : Nat)
  | sendComplete (cb ctx : Nat) (sr : IO_SEND_RESULT)
  | sleep (ms : Nat)
  | socketClose (sock : Int)
  | sslFree
  | ctxFree
  | sslShutdown
deriving DecidableEq, Repr

/-- TLS_IO_INSTANCE from the source.  `ssl` and `ssl_context` record whether
the corresponding pointer field is non-null; `sock` is the raw descriptor
with the -1 sentinel used by the source. -/
structure TLS_IO_INSTANCE where
  on_bytes_received : Option Nat
  on_io_open_complete : Option Nat
  on_io_close_complete : Option Nat
  on_io_error : Option Nat
  on_bytes_received_context : Nat
  on_io_open_complete_context : Nat
  on_io_close_complete_context : Nat
  on_io_error_context : Nat
  ssl : Bool
  ssl_context : Bool
  tlsio_state : TLSIO_STATE
  hostname : Option String
  port : Int
  certificate : Bool
  x509certificate : Bool
  x509privatekey : Bool
  sock : Int
deriving DecidableEq, Repr

/-- MAX_RETRY from the source. -/
def MAX_RETRY : Nat := 20

/-- RETRY_DELAY from the source. -/
def RETRY_DELAY : Nat := 1000

/-- Nonzero stand-in for the `__FAILURE__` macro (which expands to a line
number, always nonzero). -/
def FAILURE : Int := 1

/-- OpenSSL error code SSL_ERROR_NONE. -/
def SSL_ERROR_NONE : Int := 0

/-- OpenSSL error code SSL_ERROR_WANT_READ. -/
def SSL_ERROR_WANT_READ : Int := 2

/-- OpenSSL error code SSL_ERROR_WANT_WRITE. -/
def SSL_ERROR_WANT_WRITE : Int := 3

/-- destroy_openssl_connection_members from the source.  Frees the ssl and
ssl_context members when present and then closes the socket — but, exactly
as written in the source, only when `sock < 0` (the source line is
`if (tlsio_static_instance.sock < 0)`). -/
def destroy_openssl_connection_members (inst : TLS_IO_INSTANCE) :
    TLS_IO_INSTANCE × List CbEvent :=
  let p1 :=
    if inst.ssl then ({ inst with ssl := false }, [CbEvent.sslFree])
    else (inst, ([] : List CbEvent))
  let p2 :=
    if p1.1.ssl_context then
      ({ p1.1 with ssl_context := false }, p1.2 ++ [CbEvent.ctxFree])
    else p1
  if p2.1.sock < 0 then
    ({ p2.1 with sock := -1 }, p2.2 ++ [CbEvent.socketClose p2.1.sock])
  else p2

/-- Results of the external calls made during one create_and_connect_ssl
attempt: the raw socket factory, SSL_CTX_new, SSL_new, SSL_set_fd, and the
result of the i-th SSL_connect call (0 means the handshake completed). -/
structure OpenOracle where
  socketCreate : Int
  ctxNew : Bool
  sslNew : Bool
  setFd : Int
  connect : Nat → Int

/-- Structural-recursion worker for the connect retry loop.  The fuel is
always called with `MAX_RETRY - retry`, which the loop guard
`retry < MAX_RETRY` makes sufficient, so the fuel-exhausted arm inside the
guard is unreachable (see `connectLoop_unfold`). -/
def connectLoopAux (connect : Nat → Int) :
    Nat → Nat → Nat → Nat × Nat × List CbEvent
  | fuel, callIdx, retry =>
    if connect callIdx ≠ 0 ∧ retry < MAX_RETRY then
      match fuel with
      | 0 => (retry, 1, [])
      | fuel + 1 =>
        let rest := connectLoopAux connect fuel (callIdx + 1) (retry + 1)
        (rest.1, rest.2.1 + 1, CbEvent.sleep RETRY_DELAY :: rest.2.2)
    else (retry, 1, [])

/-- The retry loop of create_and_connect_ssl:
`while (SSL_connect(ssl) != 0 && retry < MAX_RETRY) { retry++; sleep(RETRY_DELAY); }`.
Arguments are the index of the next SSL_connect call and the current value
of `retry`; the result is the final `retry`, the number of SSL_connect
calls made, and the trace of sleeps. -/
def connectLoop (connect : Nat → Int) (callIdx retry : Nat) :
    Nat × Nat × List CbEvent :=
  connectLoopAux connect (MAX_RETRY - retry) callIdx retry

/-- create_and_connect_ssl from the source: socket creation, context and
session creation, fd binding, the bounded SSL_connect retry loop, and the
unconditional cleanup call on any failure.  The locally created context and
session are attached to the instance only on full success, exactly as in
the source. -/
def create_and_connect_ssl (o : OpenOracle) (inst : TLS_IO_INSTANCE) :
    Int × TLS_IO_INSTANCE × List CbEvent :=
  let attempt :=
    if o.socketCreate < 0 then (FAILURE, inst, ([] : List CbEvent))
    else
      let inst1 := { inst with sock := o.socketCreate }
      if ¬ o.ctxNew then (FAILURE, inst1, [])
      else if ¬ o.sslNew then (FAILURE, inst1, [])
      else if o.setFd ≠ 1 then (FAILURE, inst1, [])
      else
        let L := connectLoop o.connect 0 0
        if L.1 ≥ MAX_RETRY then (FAILURE, inst1, L.2.2)
        else (0, { inst1 with ssl := true, ssl_context := true }, L.2.2)
  if attempt.1 ≠ 0 then
    let d := destroy_openssl_connection_members attempt.2.1
    (attempt.1, d.1, attempt.2.2 ++ d.2)
  else attempt

/-- send_handshake_bytes from the source: runs create_and_connect_ssl and,
on success, sets the state to OPEN and fires on_io_open_complete with
IO_OPEN_OK when registered. -/
def send_handshake_bytes (o : OpenOracle) (inst : TLS_IO_INSTANCE) :
    Int × TLS_IO_INSTANCE × List CbEvent :=
  let c := create_and_connect_ssl o inst
  if c.1 ≠ 0 then (FAILURE, c.2.1, c.2.2)
  else
    let inst1 := { c.2.1 with tlsio_state := TLSIO_STATE.OPEN }
    match inst1.on_io_open_complete with
    | some cb =>
        (0, inst1, c.2.2 ++ [CbEvent.openComplete cb inst1.on_io_open_complete_context])
    | none => (0, inst1, c.2.2)

/-- tlsio_openssl_open from the source.  The handle argument is unused by
the source (it always works on tlsio_static_instance, passed here as
`inst`). -/
def tlsio_openssl_open (tls_io : Option Nat)
    (on_io_open_complete : Option Nat) (on_io_open_complete_context : Nat)
    (on_bytes_received : Option Nat) (on_bytes_received_context : Nat)
    (on_io_error : Option Nat) (on_io_error_context : Nat)
    (o : OpenOracle) (inst : TLS_IO_INSTANCE) :
    Int × TLS_IO_INSTANCE × List CbEvent :=
  if on_bytes_received = none then (FAILURE, inst, [])
  else if inst.tlsio_state ≠ TLSIO_STATE.NOT_OPEN then
    let inst1 := { inst with
      tlsio_state := TLSIO_STATE.ERROR
      on_io_error := on_io_error
      on_io_error_context := on_io_error_context }
    match inst1.on_io_error with
    | some cb => (FAILURE, inst1, [CbEvent.ioError cb inst1.on_io_error_context])
    | none => (FAILURE, inst1, [])
  else
    let inst1 := { inst with
      on_io_open_complete := on_io_open_complete
      on_io_open_complete_context := on_io_open_complete_context
      on_bytes_received := on_bytes_received
      on_bytes_received_context := on_bytes_received_context
      on_io_error := on_io_error
      on_io_error_context := on_io_error_context
      tlsio_state := TLSIO_STATE.OPENING }
    let hs := send_handshake_bytes o inst1
    if hs.1 ≠ 0 then
      let inst2 := { hs.2.1 with tlsio_state := TLSIO_STATE.ERROR }
      match inst2.on_io_error with
      | some cb =>
          (FAILURE, inst2, hs.2.2 ++ [CbEvent.ioError cb inst2.on_io_error_context])
      | none => (FAILURE, inst2, hs.2.2)
    else
      (0, { hs.2.1 with tlsio_state := TLSIO_STATE.OPEN }, hs.2.2)

/-- tlsio_openssl_close from the source.  The handle argument is unused by
the source. -/
def tlsio_openssl_close (tls_io : Option Nat)
    (on_io_close_complete : Option Nat) (callback_context : Nat)
    (inst : TLS_IO_INSTANCE) : Int × TLS_IO_INSTANCE × List CbEvent :=
  if inst.tlsio_state = TLSIO_STATE.NOT_OPEN ∨
     inst.tlsio_state = TLSIO_STATE.CLOSING ∨
     inst.tlsio_state = TLSIO_STATE.OPENING then
    (FAILURE, { inst with tlsio_state := TLSIO_STATE.ERROR }, [])
  else
    let inst1 := { inst with
      tlsio_state := TLSIO_STATE.CLOSING
      on_io_close_complete := on_io_close_complete
      on_io_close_complete_context := callback_context }
    let d := destroy_openssl_connection_members inst1
    let inst2 := { d.1 with tlsio_state := TLSIO_STATE.NOT_OPEN }
    match inst2.on_io_close_complete with
    | some cb =>
        (0, inst2,
          CbEvent.sslShutdown :: d.2 ++
            [CbEvent.closeComplete cb inst2.on_io_close_complete_context])
    | none => (0, inst2, CbEvent.sslShutdown :: d.2)

/-- The write loop of tlsio_openssl_send.  `write i` is the result of the
i-th SSL_write call and `getErr i` the result of SSL_get_error for that
call (consulted only when the write result is non-positive).  The loop of
the C source is unbounded, so this embedding takes fuel and returns `none`
when the fuel runs out before the loop exits; on exit it returns the final
`total_written` together with the trace of sleeps. -/
def sendLoop (write getErr : Nat → Int) :
    Nat → Nat → Nat → Nat → Option (Nat × List CbEvent)
  | _, _, 0, total_written => some (total_written, [])
  | 0, _, _ + 1, _ => none
  | fuel + 1, callIdx, size + 1, total_written =>
    let res := write callIdx
    if res > 0 then
      (sendLoop write getErr fuel (callIdx + 1) (size + 1 - res.toNat)
          (total_written + res.toNat)).map
        (fun p => (p.1, CbEvent.sleep 5 :: p.2))
    else
      let err := getErr callIdx
      if err = SSL_ERROR_WANT_READ ∨ err = SSL_ERROR_WANT_WRITE then
        (sendLoop write getErr fuel (callIdx + 1) (size + 1) total_written).map
          (fun p => (p.1, CbEvent.sleep 5 :: p.2))
      else
        some (total_written, [])

/-- tlsio_openssl_send from the source.  The buffer is modelled as an
optional byte list (only its nullness matters to the control flow; the
bytes written are dictated by the `write` oracle).  Returns `none` when the
unbounded write loop did not exit within the given fuel.  The handle
argument is unused by the source. -/
def tlsio_openssl_send (tls_io : Option Nat) (buffer : Option (List Nat))
    (size : Nat) (on_send_complete : Option Nat) (callback_context : Nat)
    (write getErr : Nat → Int) (fuel : Nat) (inst : TLS_IO_INSTANCE) :
    Option (Int × TLS_IO_INSTANCE × List CbEvent) :=
  if buffer = none then some (FAILURE, inst, [])
  else if inst.tlsio_state ≠ TLSIO_STATE.OPEN then some (FAILURE, inst, [])
  else
    match sendLoop write getErr fuel 0 size 0 with
    | none => none
    | some (total_written, evs) =>
      let sr :=
        if total_written = size then IO_SEND_RESULT.IO_SEND_OK
        else IO_SEND_RESULT.IO_SEND_ERROR
      let result : Int := if total_written = size then 0 else -1
      match on_send_complete with
      | some cb =>
          some (result, inst,
            evs ++ [CbEvent.sendComplete cb callback_context sr])
      | none => some (result, inst, evs)

/-- decode_ssl_received_bytes from the source: one SSL_read whose result is
the oracle `rcv`; a positive count is delivered to on_bytes_received (the
source invokes it without a null check, relying on the check done in open). -/
def decode_ssl_received_bytes (rcv : Int) (inst : TLS_IO_INSTANCE) :
    Int × List CbEvent :=
  if rcv > 0 then
    match inst.on_bytes_received with
    | some cb =>
        (0, [CbEvent.bytesReceived cb inst.on_bytes_received_context rcv.toNat])
    | none => (0, [])
  else (0, [])

/-- tlsio_openssl_dowork from the source: one read attempt when OPEN,
otherwise only a log.  The handle argument is unused by the source. -/
def tlsio_openssl_dowork (tls_io : Option Nat) (rcv : Int)
    (inst : TLS_IO_INSTANCE) : TLS_IO_INSTANCE × List CbEvent :=
  if inst.tlsio_state = TLSIO_STATE.OPEN then
    (inst, (decode_ssl_received_bytes rcv inst).2)
  else (inst, [])

/-- TLSIO_CONFIG from the source. -/
structure TLSIO_CONFIG where
  hostname : String
  port : Int
deriving DecidableEq, Repr

/-- The static instance right after `memset(result, 0, sizeof(...))`:
all pointers null, state NOT_OPEN (= 0), sock 0. -/
def zeroedInstance : TLS_IO_INSTANCE where
  on_bytes_received := none
  on_io_open_complete := none
  on_io_close_complete := none
  on_io_error := none
  on_bytes_received_context := 0
  on_io_open_complete_context := 0
  on_io_close_complete_context := 0
  on_io_error_context := 0
  ssl := false
  ssl_context := false
  tlsio_state := TLSIO_STATE.NOT_OPEN
  hostname := none
  port := 0
  certificate := false
  x509certificate := false
  x509privatekey := false
  sock := 0

/-- tlsio_openssl_create from the source.  It never inspects the current
contents of the static instance: it memsets it and reinitializes the
fields.  `strcpyOk` is the result of mallocAndStrcpy_s.  The first
component of the result says whether a non-null handle (always the static
instance) was returned; the second is the new contents of the static
instance. -/
def tlsio_openssl_create (io_create_parameters : Option TLSIO_CONFIG)
    (strcpyOk : Bool) (inst : TLS_IO_INSTANCE) : Bool × TLS_IO_INSTANCE :=
  match io_create_parameters with
  | none => (false, inst)
  | some cfg =>
    if ¬ strcpyOk then (false, zeroedInstance)
    else
      (true, { zeroedInstance with
        hostname := some cfg.hostname
        port := cfg.port
        sock := -1 })

/-- tlsio_openssl_destroy from the source: frees the owned strings and
credential buffers.  The handle argument is unused by the source. -/
def tlsio_openssl_destroy (tls_io : Option Nat) (inst : TLS_IO_INSTANCE) :
    TLS_IO_INSTANCE :=
  { inst with
    certificate := false
    hostname := none
    x509certificate := false
    x509privatekey := false }

/-! ### Concrete fixtures used by witnesses and counterexamples -/

/-- A valid creation configuration. -/
def exampleConfig : TLSIO_CONFIG where
  hostname := "example.com"
  port := 443

/-- The static instance right after a successful create. -/
def freshInstance : TLS_IO_INSTANCE :=
  (tlsio_openssl_create (some exampleConfig) true zeroedInstance).2

/-- The static instance after a successful open: state OPEN, live session,
context and socket (descriptor 3), bytes-received callback registered. -/
def openInstance : TLS_IO_INSTANCE :=
  { freshInstance with
    tlsio_state := TLSIO_STATE.OPEN
    ssl := true
    ssl_context := true
    sock := 3
    on_bytes_received := some 2
    on_bytes_received_context := 20 }

/-- An environment in which socket (descriptor 3), context, session and fd
binding all succeed but every SSL_connect call reports not-yet-complete. -/
def exhaustOracle : OpenOracle where
  socketCreate := 3
  ctxNew := true
  sslNew := true
  setFd := 1
  connect := fun _ => -1

/-- Recognizer for send completion events. -/
def isSendCompleteEv : CbEvent → Bool
  | CbEvent.sendComplete _ _ _ => true
  | _ => false

/-! ### Helper lemmas -/

/-- One-step unfolding of `connectLoop`, matching the C loop: when the
guard `SSL_connect != 0 && retry < MAX_RETRY` holds, one sleep is taken
and the loop continues at `retry + 1`; otherwise it exits.  The worker
fuel `MAX_RETRY - retry` is sufficient because the guard bounds `retry`. -/
theorem connectLoop_unfold (c : Nat → Int) (i r : Nat) :
    connectLoop c i r =
      if c i ≠ 0 ∧ r < MAX_RETRY then
        ((connectLoop c (i + 1) (r + 1)).1,
          (connectLoop c (i + 1) (r + 1)).2.1 + 1,
          CbEvent.sleep RETRY_DELAY :: (connectLoop c (i + 1) (r + 1)).2.2)
      else (r, 1, []) := by
  by_cases h : c i ≠ 0 ∧ r < MAX_RETRY
  · rw [if_pos h]
    have hf : MAX_RETRY - r = (MAX_RETRY - (r + 1)) + 1 := by omega
    show connectLoopAux c (MAX_RETRY - r) i r = _
    rw [hf, connectLoopAux, if_pos h]
    rfl
  · rw [if_neg h]
    show connectLoopAux c (MAX_RETRY - r) i r = _
    cases hn : MAX_RETRY - r with
    | zero => rw [connectLoopAux, if_neg h]
    | succ fuel => rw [connectLoopAux, if_neg h]

/-- The connect retry loop never decreases `retry`, never pushes it past
MAX_RETRY (when it started at most there), and its trace is exactly one
RETRY_DELAY sleep per retry taken. -/
theorem connectLoop_spec (c : Nat → Int) :
    ∀ gap i r, MAX_RETRY - r ≤ gap →
      r ≤ (connectLoop c i r).1 ∧
      (connectLoop c i r).1 ≤ max r MAX_RETRY ∧
      (connectLoop c i r).2.2 =
        List.replicate ((connectLoop c i r).1 - r) (CbEvent.sleep RETRY_DELAY) := by
  intro gap
  induction gap with
  | zero =>
    intro i r hr
    rw [connectLoop_unfold]
    have hcond : ¬ (c i ≠ 0 ∧ r < MAX_RETRY) := by omega
    rw [if_neg hcond]
    exact ⟨le_refl r, le_max_left r MAX_RETRY, by simp⟩
  | succ gap ih =>
    intro i r hr
    rw [connectLoop_unfold]
    by_cases hcond : c i ≠ 0 ∧ r < MAX_RETRY
    · rw [if_pos hcond]
      have hgap : MAX_RETRY - (r + 1) ≤ gap := by omega
      obtain ⟨h1, h2, h3⟩ := ih (i + 1) (r + 1) hgap
      have hmax : max (r + 1) MAX_RETRY = MAX_RETRY :=
        Nat.max_eq_right hcond.2
      rw [hmax] at h2
      show r ≤ (connectLoop c (i + 1) (r + 1)).1 ∧
        (connectLoop c (i + 1) (r + 1)).1 ≤ max r MAX_RETRY ∧
        CbEvent.sleep RETRY_DELAY :: (connectLoop c (i + 1) (r + 1)).2.2 =
          List.replicate ((connectLoop c (i + 1) (r + 1)).1 - r)
            (CbEvent.sleep RETRY_DELAY)
      have hmax2 : max r MAX_RETRY = MAX_RETRY :=
        Nat.max_eq_right (Nat.le_of_lt hcond.2)
      refine ⟨by omega, by omega, ?_⟩
      rw [h3]
      have hsub : (connectLoop c (i + 1) (r + 1)).1 - r =
          ((connectLoop c (i + 1) (r + 1)).1 - (r + 1)) + 1 := by omega
      rw [hsub, List.replicate_succ]
    · rw [if_neg hcond]
      exact ⟨le_refl r, le_max_left r MAX_RETRY, by simp⟩

/-- If every SSL_connect call from index `r` up to MAX_RETRY reports
not-yet-complete, the loop started at (callIdx, retry) = (r, r) drives
`retry` all the way to MAX_RETRY. -/
theorem connectLoop_exhaust (c : Nat → Int) :
    ∀ gap r, MAX_RETRY - r ≤ gap → r ≤ MAX_RETRY →
      (∀ j, r ≤ j → j < MAX_RETRY → c j ≠ 0) →
      (connectLoop c r r).1 = MAX_RETRY := by
  intro gap
  induction gap with
  | zero =>
    intro r hr hle _
    rw [connectLoop_unfold]
    have hcond : ¬ (c r ≠ 0 ∧ r < MAX_RETRY) := by omega
    rw [if_neg hcond]
    show r = MAX_RETRY
    omega
  | succ gap ih =>
    intro r hr hle hc
    by_cases hlt : r < MAX_RETRY
    · rw [connectLoop_unfold]
      have hcond : c r ≠ 0 ∧ r < MAX_RETRY := ⟨hc r (le_refl r) hlt, hlt⟩
      rw [if_pos hcond]
      show (connectLoop c (r + 1) (r + 1)).1 = MAX_RETRY
      exact ih (r + 1) (by omega) (by omega) (fun j hj hj2 => hc j (by omega) hj2)
    · rw [connectLoop_unfold]
      have hcond : ¬ (c r ≠ 0 ∧ r < MAX_RETRY) := by omega
      rw [if_neg hcond]
      show r = MAX_RETRY
      omega

/-- Every event the send write loop itself emits is a 5ms sleep (the
completion callback is fired after the loop, not inside it). -/
theorem sendLoop_events_sleep (write getErr : Nat → Int) :
    ∀ fuel callIdx size tw p,
      sendLoop write getErr fuel callIdx size tw = some p →
      ∀ e ∈ p.2, e = CbEvent.sleep 5 := by
  intro fuel
  induction fuel with
  | zero =>
    intro callIdx size tw p hp e he
    match size, hp with
    | 0, hp =>
      rw [sendLoop] at hp
      cases hp
      simp at he
  | succ fuel ih =>
    intro callIdx size tw p hp e he
    match size, hp with
    | 0, hp =>
      rw [sendLoop] at hp
      cases hp
      simp at he
    | size + 1, hp =>
      rw [sendLoop] at hp
      by_cases hres : write callIdx > 0
      · rw [if_pos hres] at hp
        cases hq : sendLoop write getErr fuel (callIdx + 1)
            (size + 1 - (write callIdx).toNat) (tw + (write callIdx).toNat) with
        | none => rw [hq] at hp; simp [Option.map] at hp
        | some q =>
          rw [hq] at hp
          simp only [Option.map] at hp
          cases hp
          simp only [List.mem_cons] at he
          rcases he with he | he
          · exact he
          · exact ih _ _ _ _ hq e he
      · rw [if_neg hres] at hp
        by_cases herr : getErr callIdx = SSL_ERROR_WANT_READ ∨
            getErr callIdx = SSL_ERROR_WANT_WRITE
        · rw [if_pos herr] at hp
          cases hq : sendLoop write getErr fuel (callIdx + 1) (size + 1) tw with
          | none => rw [hq] at hp; simp [Option.map] at hp
          | some q =>
            rw [hq] at hp
            simp only [Option.map] at hp
            cases hp
            simp only [List.mem_cons] at he
            rcases he with he | he
            · exact he
            · exact ih _ _ _ _ hq e he
        · rw [if_neg herr] at hp
          cases hp
          simp at he

/-- With a transport whose every write attempt reports WANT_READ, the send
write loop never exits, whatever fuel it is given. -/
theorem sendLoop_want_read_never_exits :
    ∀ fuel callIdx,
      sendLoop (fun _ => -1) (fun _ => SSL_ERROR_WANT_READ) fuel callIdx 1 0 =
        none := by
  intro fuel
  induction fuel with
  | zero =>
    intro callIdx
    rfl
  | succ fuel ih =>
    intro callIdx
    show sendLoop (fun _ => -1) (fun _ => SSL_ERROR_WANT_READ)
      (fuel + 1) callIdx (0 + 1) 0 = none
    rw [sendLoop]
    have h1 : ¬ ((-1 : Int) > 0) := by decide
    rw [if_neg h1]
    have h2 : (-1 : Int) = SSL_ERROR_WANT_READ ∨
        (-1 : Int) = SSL_ERROR_WANT_WRITE ∨ True := by simp
    rw [if_pos (by simp [SSL_ERROR_WANT_READ])]
    rw [ih (callIdx + 1)]
    rfl

/-! ### Claim theorems -/

/-- C7: a dowork call in any state other than OPEN invokes no callback,
changes no field of the instance, and reports nothing. -/
theorem dowork_outside_open_is_silent_noop (tls_io : Option Nat) (rcv : Int)
    (inst : TLS_IO_INSTANCE) (h : inst.tlsio_state ≠ TLSIO_STATE.OPEN) :
    tlsio_openssl_dowork tls_io rcv inst = (inst, []) := by
  rw [tlsio_openssl_dowork, if_neg h]

/-- Witness for C7 at a concrete NOT_OPEN instance. -/
theorem dowork_outside_open_is_silent_noop_witness :
    freshInstance.tlsio_state ≠ TLSIO_STATE.OPEN ∧
    tlsio_openssl_dowork (some 7) 5 freshInstance = (freshInstance, []) :=
  ⟨by decide, dowork_outside_open_is_silent_noop (some 7) 5 freshInstance
    (by decide)⟩

/-- C10: every adapter operation ignores its handle argument: with the
same remaining arguments and the same instance state, any two handle
values (null included) give identical return values, identical callback
traces, and identical instance state. -/
theorem handle_argument_is_ignored (h1 h2 : Option Nat) :
    (∀ oc occ br brc oe oec o inst,
      tlsio_openssl_open h1 oc occ br brc oe oec o inst =
        tlsio_openssl_open h2 oc occ br brc oe oec o inst) ∧
    (∀ cc ctx inst,
      tlsio_openssl_close h1 cc ctx inst = tlsio_openssl_close h2 cc ctx inst) ∧
    (∀ buffer size sc ctx write getErr fuel inst,
      tlsio_openssl_send h1 buffer size sc ctx write getErr fuel inst =
        tlsio_openssl_send h2 buffer size sc ctx write getErr fuel inst) ∧
    (∀ rcv inst,
      tlsio_openssl_dowork h1 rcv inst = tlsio_openssl_dowork h2 rcv inst) ∧
    (∀ inst, tlsio_openssl_destroy h1 inst = tlsio_openssl_destroy h2 inst) :=
  ⟨fun _ _ _ _ _ _ _ _ => rfl, fun _ _ _ => rfl, fun _ _ _ _ _ _ _ _ => rfl,
    fun _ _ => rfl, fun _ => rfl⟩

/-- C9: the send write loop has no iteration bound — with the transport
that always answers WANT_READ, no fuel suffices for the loop (and hence
for send on a 1-byte buffer in state OPEN) to return. -/
theorem send_loop_spins_forever_on_want_read (fuel : Nat) :
    sendLoop (fun _ => -1) (fun _ => SSL_ERROR_WANT_READ) fuel 0 1 0 = none ∧
    tlsio_openssl_send (some 0) (some [42]) 1 (some 5) 50
      (fun _ => -1) (fun _ => SSL_ERROR_WANT_READ) fuel openInstance = none := by
  refine ⟨sendLoop_want_read_never_exits fuel 0, ?_⟩
  rw [tlsio_openssl_send]
  rw [if_neg (by decide : ¬ ((some [42] : Option (List Nat)) = none))]
  rw [if_neg (by decide : ¬ (openInstance.tlsio_state ≠ TLSIO_STATE.OPEN))]
  rw [sendLoop_want_read_never_exits fuel 0]

/-- C8 counterexample: create issued while the static instance still holds
a live, undestroyed OPEN connection is not rejected — it returns a
non-null (usable) handle. -/
theorem create_before_destroy_not_rejected_cex :
    (tlsio_openssl_create (some exampleConfig) true openInstance).1 = true :=
  rfl

/-- C8 amended: at most one Connection exists because create never
allocates a second instance — it unconditionally reinitializes the single
static instance (the result does not depend on the previous contents) and
returns it, so creation before destruction is not rejected. -/
theorem create_reinitializes_single_static_instance (cfg : TLSIO_CONFIG)
    (strcpyOk : Bool) (inst1 inst2 : TLS_IO_INSTANCE) :
    (tlsio_openssl_create (some cfg) true inst1).1 = true ∧
    (tlsio_openssl_create (some cfg) strcpyOk inst1).2 =
      (tlsio_openssl_create (some cfg) strcpyOk inst2).2 ∧
    (tlsio_openssl_create (some cfg) true inst1).2.tlsio_state =
      TLSIO_STATE.NOT_OPEN := by
  refine ⟨rfl, ?_, rfl⟩
  cases strcpyOk <;> rfl

/-- C1 (refutation of the claim on the code): an open from NOT_OPEN whose
handshake acquires socket descriptor 3 (and a context and session) and
then fails by retry exhaustion reports failure, yet the instance still
stores the open socket and the trace contains no socketClose, sslFree or
ctxFree event — nothing acquired in the call was released. -/
theorem open_failure_path_releases_nothing :
    (tlsio_openssl_open (some 0) (some 1) 10 (some 2) 20 (some 3) 30
      exhaustOracle freshInstance).1 ≠ 0 ∧
    (tlsio_openssl_open (some 0) (some 1) 10 (some 2) 20 (some 3) 30
      exhaustOracle freshInstance).2.1.sock = 3 ∧
    (tlsio_openssl_open (some 0) (some 1) 10 (some 2) 20 (some 3) 30
      exhaustOracle freshInstance).2.2 =
      List.replicate MAX_RETRY (CbEvent.sleep RETRY_DELAY) ++
        [CbEvent.ioError 3 30] := by
  decide

/-- C6 (refutation of the socket-release part on the code): a close from
OPEN with live session, context and socket 3 returns 0, resets the state
to NOT_OPEN and fires the completion callback exactly once, and the trace
shows the session and context freed — but no socketClose occurs and the
instance still stores descriptor 3, because the release helper closes the
socket only when `sock < 0`. -/
theorem close_success_does_not_release_socket :
    (tlsio_openssl_close (some 0) (some 4) 40 openInstance).1 = 0 ∧
    (tlsio_openssl_close (some 0) (some 4) 40 openInstance).2.1.tlsio_state =
      TLSIO_STATE.NOT_OPEN ∧
    (tlsio_openssl_close (some 0) (some 4) 40 openInstance).2.2 =
      [CbEvent.sslShutdown, CbEvent.sslFree, CbEvent.ctxFree,
        CbEvent.closeComplete 4 40] ∧
    (tlsio_openssl_close (some 0) (some 4) 40 openInstance).2.1.sock = 3 := by
  decide

/-- C4 counterexample: a send with a registered completion callback but a
null buffer fails its precondition and returns with an empty trace — the
callback is not invoked at all, let alone exactly once. -/
theorem send_precondition_failure_skips_callback_cex :
    tlsio_openssl_send (some 0) none 4 (some 5) 50 (fun _ => 1) (fun _ => 0)
      9 openInstance = some (FAILURE, openInstance, []) :=
  rfl

/-- C5: an open call with a non-null on_bytes_received issued while the
state is not NOT_OPEN fails, leaves the state ERROR, and invokes the
on_error callback supplied to that call (when non-null) before returning. -/
theorem open_in_wrong_state_fails (tls_io : Option Nat)
    (oc : Option Nat) (occ : Nat) (br : Option Nat) (brc : Nat)
    (oe : Option Nat) (oec : Nat) (o : OpenOracle) (inst : TLS_IO_INSTANCE)
    (hbr : br ≠ none) (hstate : inst.tlsio_state ≠ TLSIO_STATE.NOT_OPEN) :
    (tlsio_openssl_open tls_io oc occ br brc oe oec o inst).1 ≠ 0 ∧
    (tlsio_openssl_open tls_io oc occ br brc oe oec o inst).2.1.tlsio_state =
      TLSIO_STATE.ERROR ∧
    ∀ cb, oe = some cb →
      (tlsio_openssl_open tls_io oc occ br brc oe oec o inst).2.2 =
        [CbEvent.ioError cb oec] := by
  simp only [tlsio_openssl_open]
  rw [if_neg hbr, if_pos hstate]
  cases oe with
  | none =>
    refine ⟨?_, rfl, ?_⟩
    · show FAILURE ≠ 0
      decide
    · intro cb hcb
      cases hcb
  | some cb0 =>
    refine ⟨?_, rfl, ?_⟩
    · show FAILURE ≠ 0
      decide
    · intro cb hcb
      cases hcb
      rfl

/-- Witness for C5: a second open issued against an OPEN instance. -/
theorem open_in_wrong_state_fails_witness :
    ((some 2 : Option Nat) ≠ none) ∧
    openInstance.tlsio_state ≠ TLSIO_STATE.NOT_OPEN ∧
    ((tlsio_openssl_open (some 0) (some 1) 10 (some 2) 20 (some 3) 30
        exhaustOracle openInstance).1 ≠ 0 ∧
      (tlsio_openssl_open (some 0) (some 1) 10 (some 2) 20 (some 3) 30
        exhaustOracle openInstance).2.1.tlsio_state = TLSIO_STATE.ERROR ∧
      ∀ cb, (some 3 : Option Nat) = some cb →
        (tlsio_openssl_open (some 0) (some 1) 10 (some 2) 20 (some 3) 30
          exhaustOracle openInstance).2.2 = [CbEvent.ioError cb 30]) :=
  ⟨by decide, by decide,
    open_in_wrong_state_fails (some 0) (some 1) 10 (some 2) 20 (some 3) 30
      exhaustOracle openInstance (by decide) (by decide)⟩

/-- C2: a send that passes its preconditions and whose write loop exits
returns 0 if and only if the cumulative bytes written by the loop equal
the requested size, and the completion callback is fired with success
exactly in that case (failure otherwise, including every short write). -/
theorem send_success_iff_all_bytes_written (tls_io : Option Nat)
    (buffer : Option (List Nat)) (size : Nat) (cb ctx : Nat)
    (write getErr : Nat → Int) (fuel : Nat) (inst : TLS_IO_INSTANCE)
    (r : Int) (inst' : TLS_IO_INSTANCE) (evs : List CbEvent)
    (hbuf : buffer ≠ none) (hstate : inst.tlsio_state = TLSIO_STATE.OPEN)
    (hrun : tlsio_openssl_send tls_io buffer size (some cb) ctx write getErr
      fuel inst = some (r, inst', evs)) :
    ∃ tw levs, sendLoop write getErr fuel 0 size 0 = some (tw, levs) ∧
      (r = 0 ↔ tw = size) ∧
      evs = levs ++ [CbEvent.sendComplete cb ctx
        (if tw = size then IO_SEND_RESULT.IO_SEND_OK
         else IO_SEND_RESULT.IO_SEND_ERROR)] := by
  rw [tlsio_openssl_send, if_neg hbuf,
    if_neg (by simp [hstate] :
      ¬ inst.tlsio_state ≠ TLSIO_STATE.OPEN)] at hrun
  cases hsl : sendLoop write getErr fuel 0 size 0 with
  | none =>
    rw [hsl] at hrun
    cases hrun
  | some p =>
    obtain ⟨tw, levs⟩ := p
    rw [hsl] at hrun
    have hrun2 : (some ((if tw = size then (0 : Int) else -1), inst,
        levs ++ [CbEvent.sendComplete cb ctx
          (if tw = size then IO_SEND_RESULT.IO_SEND_OK
           else IO_SEND_RESULT.IO_SEND_ERROR)]) :
        Option (Int × TLS_IO_INSTANCE × List CbEvent)) =
        some (r, inst', evs) := hrun
    simp only [Option.some.injEq, Prod.mk.injEq] at hrun2
    obtain ⟨h_r, _, h_e⟩ := hrun2
    refine ⟨tw, levs, rfl, ?_, h_e.symm⟩
    by_cases htw : tw = size
    · rw [if_pos htw] at h_r
      rw [← h_r]
      simp [htw]
    · rw [if_neg htw] at h_r
      rw [← h_r]
      simp [htw]

/-- Witness for C2: a two-byte send completed by two one-byte writes. -/
theorem send_success_iff_all_bytes_written_witness :
    ((some [1, 2] : Option (List Nat)) ≠ none) ∧
    openInstance.tlsio_state = TLSIO_STATE.OPEN ∧
    tlsio_openssl_send (some 0) (some [1, 2]) 2 (some 5) 50 (fun _ => 1)
      (fun _ => 0) 5 openInstance =
      some (0, openInstance,
        [CbEvent.sleep 5, CbEvent.sleep 5,
          CbEvent.sendComplete 5 50 IO_SEND_RESULT.IO_SEND_OK]) ∧
    (∃ tw levs, sendLoop (fun _ => 1) (fun _ => 0) 5 0 2 0 = some (tw, levs) ∧
      ((0 : Int) = 0 ↔ tw = 2) ∧
      [CbEvent.sleep 5, CbEvent.sleep 5,
        CbEvent.sendComplete 5 50 IO_SEND_RESULT.IO_SEND_OK] =
        levs ++ [CbEvent.sendComplete 5 50
          (if tw = 2 then IO_SEND_RESULT.IO_SEND_OK
           else IO_SEND_RESULT.IO_SEND_ERROR)]) :=
  ⟨by decide, by decide, by decide,
    send_success_iff_all_bytes_written (some 0) (some [1, 2]) 2 5 50
      (fun _ => 1) (fun _ => 0) 5 openInstance 0 openInstance
      [CbEvent.sleep 5, CbEvent.sleep 5,
        CbEvent.sendComplete 5 50 IO_SEND_RESULT.IO_SEND_OK]
      (by decide) (by decide) (by decide)⟩

/-- C4 amended: when the write loop exits within the given fuel, a send
with a registered completion callback fires it exactly once if both
preconditions (non-null buffer, state OPEN) pass, and zero times if
either precondition fails. -/
theorem send_callback_count (tls_io : Option Nat) (buffer : Option (List Nat))
    (size : Nat) (cb ctx : Nat) (write getErr : Nat → Int) (fuel : Nat)
    (inst : TLS_IO_INSTANCE) (r : Int) (inst' : TLS_IO_INSTANCE)
    (evs : List CbEvent)
    (hrun : tlsio_openssl_send tls_io buffer size (some cb) ctx write getErr
      fuel inst = some (r, inst', evs)) :
    evs.countP isSendCompleteEv =
      if buffer = none ∨ inst.tlsio_state ≠ TLSIO_STATE.OPEN then 0 else 1 := by
  by_cases hbuf : buffer = none
  · rw [tlsio_openssl_send, if_pos hbuf] at hrun
    have hrun2 : (some (FAILURE, inst, ([] : List CbEvent)) :
        Option (Int × TLS_IO_INSTANCE × List CbEvent)) =
        some (r, inst', evs) := hrun
    simp only [Option.some.injEq, Prod.mk.injEq] at hrun2
    rw [← hrun2.2.2]
    simp [hbuf]
  · by_cases hstate : inst.tlsio_state ≠ TLSIO_STATE.OPEN
    · rw [tlsio_openssl_send, if_neg hbuf, if_pos hstate] at hrun
      have hrun2 : (some (FAILURE, inst, ([] : List CbEvent)) :
          Option (Int × TLS_IO_INSTANCE × List CbEvent)) =
          some (r, inst', evs) := hrun
      simp only [Option.some.injEq, Prod.mk.injEq] at hrun2
      rw [← hrun2.2.2]
      simp [hbuf, hstate]
    · rw [tlsio_openssl_send, if_neg hbuf, if_neg hstate] at hrun
      cases hsl : sendLoop write getErr fuel 0 size 0 with
      | none =>
        rw [hsl] at hrun
        cases hrun
      | some p =>
        obtain ⟨tw, levs⟩ := p
        rw [hsl] at hrun
        have hrun2 : (some ((if tw = size then (0 : Int) else -1), inst,
            levs ++ [CbEvent.sendComplete cb ctx
              (if tw = size then IO_SEND_RESULT.IO_SEND_OK
               else IO_SEND_RESULT.IO_SEND_ERROR)]) :
            Option (Int × TLS_IO_INSTANCE × List CbEvent)) =
            some (r, inst', evs) := hrun
        simp only [Option.some.injEq, Prod.mk.injEq] at hrun2
        rw [← hrun2.2.2]
        have hcond : ¬ (buffer = none ∨
            inst.tlsio_state ≠ TLSIO_STATE.OPEN) := by
          push_neg
          exact ⟨hbuf, not_not.mp hstate⟩
        rw [if_neg hcond, List.countP_append]
        have hzero : levs.countP isSendCompleteEv = 0 := by
          rw [List.countP_eq_zero]
          intro e he
          rw [sendLoop_events_sleep write getErr fuel 0 size 0 (tw, levs)
            hsl e he]
          decide
        rw [hzero]
        simp [isSendCompleteEv]

/-- Witness for C4 (amended): the same successful two-byte send fires its
completion callback exactly once. -/
theorem send_callback_count_witness :
    tlsio_openssl_send (some 0) (some [1, 2]) 2 (some 5) 50 (fun _ => 1)
      (fun _ => 0) 5 openInstance =
      some (0, openInstance,
        [CbEvent.sleep 5, CbEvent.sleep 5,
          CbEvent.sendComplete 5 50 IO_SEND_RESULT.IO_SEND_OK]) ∧
    [CbEvent.sleep 5, CbEvent.sleep 5,
      CbEvent.sendComplete 5 50 IO_SEND_RESULT.IO_SEND_OK].countP
        isSendCompleteEv =
      if (some [1, 2] : Option (List Nat)) = none ∨
          openInstance.tlsio_state ≠ TLSIO_STATE.OPEN then 0 else 1 :=
  ⟨by decide,
    send_callback_count (some 0) (some [1, 2]) 2 5 50 (fun _ => 1)
      (fun _ => 0) 5 openInstance 0 openInstance
      [CbEvent.sleep 5, CbEvent.sleep 5,
        CbEvent.sendComplete 5 50 IO_SEND_RESULT.IO_SEND_OK] (by decide)⟩

/-- C3: once an open reaches the handshake (socket, context, session and
fd binding all succeeded), the connect step is retried with one
RETRY_DELAY (1000) sleep per retry, the retry counter never exceeds
MAX_RETRY (20), the attempt succeeds exactly when the loop exits below the
bound, and if the first MAX_RETRY connect calls all report not-yet-complete
the attempt fails regardless of the outcome of the final connect call. -/
theorem handshake_retry_policy (o : OpenOracle) (inst : TLS_IO_INSTANCE)
    (hsock : 0 ≤ o.socketCreate) (hctx : o.ctxNew = true)
    (hssl : o.sslNew = true) (hfd : o.setFd = 1) :
    (connectLoop o.connect 0 0).2.2 =
      List.replicate (connectLoop o.connect 0 0).1
        (CbEvent.sleep RETRY_DELAY) ∧
    (connectLoop o.connect 0 0).1 ≤ MAX_RETRY ∧
    ((create_and_connect_ssl o inst).1 = 0 ↔
      (connectLoop o.connect 0 0).1 < MAX_RETRY) ∧
    ((∀ j, j < MAX_RETRY → o.connect j ≠ 0) →
      (create_and_connect_ssl o inst).1 ≠ 0) := by
  obtain ⟨hge, hle, hev⟩ := connectLoop_spec o.connect MAX_RETRY 0 0 (by omega)
  have hle20 : (connectLoop o.connect 0 0).1 ≤ MAX_RETRY := by omega
  have key : (create_and_connect_ssl o inst).1 =
      if MAX_RETRY ≤ (connectLoop o.connect 0 0).1 then FAILURE else 0 := by
    by_cases hb : MAX_RETRY ≤ (connectLoop o.connect 0 0).1
    · rw [if_pos hb]
      simp only [create_and_connect_ssl]
      rw [if_neg (by omega : ¬ o.socketCreate < 0)]
      rw [if_neg (by simp [hctx] : ¬ ¬ o.ctxNew)]
      rw [if_neg (by simp [hssl] : ¬ ¬ o.sslNew)]
      rw [if_neg (by simp [hfd] : ¬ o.setFd ≠ 1)]
      rw [if_pos (hb : (connectLoop o.connect 0 0).1 ≥ MAX_RETRY)]
      simp [FAILURE]
    · rw [if_neg hb]
      simp only [create_and_connect_ssl]
      rw [if_neg (by omega : ¬ o.socketCreate < 0)]
      rw [if_neg (by simp [hctx] : ¬ ¬ o.ctxNew)]
      rw [if_neg (by simp [hssl] : ¬ ¬ o.sslNew)]
      rw [if_neg (by simp [hfd] : ¬ o.setFd ≠ 1)]
      rw [if_neg (hb : ¬ (connectLoop o.connect 0 0).1 ≥ MAX_RETRY)]
      simp
  refine ⟨by simpa using hev, hle20, ?_, ?_⟩
  · rw [key]
    by_cases hb : MAX_RETRY ≤ (connectLoop o.connect 0 0).1
    · rw [if_pos hb]
      simp only [FAILURE]
      constructor
      · intro h
        exact absurd h (by decide)
      · intro h
        omega
    · rw [if_neg hb]
      simp only []
      constructor
      · intro _
        omega
      · intro _
        trivial
  · intro hall
    have hx : (connectLoop o.connect 0 0).1 = MAX_RETRY :=
      connectLoop_exhaust o.connect MAX_RETRY 0 (by omega) (by omega)
        (fun j _ hj2 => hall j hj2)
    rw [key, if_pos (by omega)]
    decide

/-- Witness for C3: the transport that never completes its handshake. -/
theorem handshake_retry_policy_witness :
    (0 ≤ exhaustOracle.socketCreate) ∧ exhaustOracle.ctxNew = true ∧
    exhaustOracle.sslNew = true ∧ exhaustOracle.setFd = 1 ∧
    ((connectLoop exhaustOracle.connect 0 0).2.2 =
      List.replicate (connectLoop exhaustOracle.connect 0 0).1
        (CbEvent.sleep RETRY_DELAY) ∧
    (connectLoop exhaustOracle.connect 0 0).1 ≤ MAX_RETRY ∧
    ((create_and_connect_ssl exhaustOracle freshInstance).1 = 0 ↔
      (connectLoop exhaustOracle.connect 0 0).1 < MAX_RETRY) ∧
    ((∀ j, j < MAX_RETRY → exhaustOracle.connect j ≠ 0) →
      (create_and_connect_ssl exhaustOracle freshInstance).1 ≠ 0)) :=
  ⟨by decide, rfl, rfl, rfl,
    handshake_retry_policy exhaustOracle freshInstance (by decide) rfl rfl rfl⟩
